import Mathlib

/-!
Verification of the n8n-agent repository (Hono backend + TanStack Query
frontend demo) against its natural-language specification.

The embedding follows the source files:
  * `packages/be/src/index.ts` — the Hono app with two GET routes and the
    exported `\x7b fetch, port \x7d` configuration;
  * the frontend route file (`/demo/tanstack-query`) — `fetchTodos` and the
    `TanStackQueryDemo` component.
-/

/-- A JSON value, the shape of data carried by `c.json(...)` responses and
by `response.json()` on the client. Object fields keep insertion order,
as JavaScript objects and `JSON.stringify` do. -/
inductive Json where
  | null : Json
  | bool (b : Bool) : Json
  | num (n : Int) : Json
  | str (s : String) : Json
  | arr (elems : List Json) : Json
  | obj (fields : List (String × Json)) : Json
deriving Repr

mutual

/-- Serialization of a JSON value to its byte string, as `JSON.stringify`
produces it for the values this program emits (no spaces, fields in
insertion order). -/
def Json.render : Json → String
  | Json.null => "null"
  | Json.bool true => "true"
  | Json.bool false => "false"
  | Json.num n => toString n
  | Json.str s => "\"" ++ s ++ "\""
  | Json.arr elems => "[" ++ Json.renderElems elems ++ "]"
  | Json.obj fields => "\x7b" ++ Json.renderFields fields ++ "\x7d"

/-- Comma-separated rendering of array elements. -/
def Json.renderElems : List Json → String
  | [] => ""
  | [x] => Json.render x
  | x :: xs => Json.render x ++ "," ++ Json.renderElems xs

/-- Comma-separated rendering of object fields. -/
def Json.renderFields : List (String × Json) → String
  | [] => ""
  | [(k, v)] => "\"" ++ k ++ "\":" ++ Json.render v
  | (k, v) :: fs => "\"" ++ k ++ "\":" ++ Json.render v ++ "," ++ Json.renderFields fs

end

/-- A record of the in-memory list: `\x7b id: number, name: string \x7d`
in the source. -/
structure Todo where
  id : Int
  name : String
deriving Repr, DecidableEq

/-- JSON serialization of a record, field order as in the object literals
of the source (`id` first, then `name`). -/
def Todo.toJson (t : Todo) : Json :=
  Json.obj [("id", Json.num t.id), ("name", Json.str t.name)]

/-- The fixed sample list `todos` populated at module load in
`packages/be/src/index.ts`. -/
def todos : List Todo :=
  [⟨1, "Alice"⟩, ⟨2, "Bob"⟩, ⟨3, "Hehe"⟩]

/-- HTTP request methods. -/
inductive Method where
  | GET : Method
  | POST : Method
  | PUT : Method
  | DELETE : Method
  | PATCH : Method
  | OPTIONS : Method
  | HEAD : Method
deriving Repr, DecidableEq

/-- The part of an HTTP request that the app's routing consults: the
method and the path. -/
structure Request where
  method : Method
  path : String
deriving Repr, DecidableEq

/-- A response body: plain text (from `c.text`), JSON (from `c.json`),
or the null body Hono attaches when it answers a HEAD request from a GET
handler. -/
inductive Body where
  | text (s : String) : Body
  | json (j : Json) : Body
  | empty : Body
deriving Repr

/-- An HTTP response: status code and body. -/
structure Response where
  status : Nat
  body : Body
deriving Repr

/-- The mutable state owned by the API service process: the in-memory
record list (the only module-level mutable binding the handlers read). -/
structure ServerState where
  todos : List Todo
deriving Repr, DecidableEq

/-- The state of the service right after module load: the list holds the
fixed sample data. -/
def initialState : ServerState :=
  ⟨todos⟩

/-- Routing of the Hono app. The two registered routes are tried exactly
as `app.get("/")` and `app.get("/api/todos")` register them; any other
request falls through to Hono's default not-found handler (status 404,
body `404 Not Found`). Handlers return the possibly updated server state
alongside the response; no handler in the source writes to the list. -/
def route (s : ServerState) (req : Request) : Response × ServerState :=
  if req.method = Method.GET ∧ req.path = "/" then
    (⟨200, Body.text "Hello Hono!"⟩, s)
  else if req.method = Method.GET ∧ req.path = "/api/todos" then
    (⟨200, Body.json (Json.arr (s.todos.map Todo.toJson))⟩, s)
  else
    (⟨404, Body.text "404 Not Found"⟩, s)

/-- One request/response step of the Hono app, including the framework's
HEAD dispatch: Hono v4 answers a HEAD request by dispatching it to the
GET handlers for the same path and returning that response's status with
a null body; every other request goes straight to routing. -/
def handle (s : ServerState) (req : Request) : Response × ServerState :=
  if req.method = Method.HEAD then
    ((⟨(route s ⟨Method.GET, req.path⟩).1.status, Body.empty⟩ : Response),
      (route s ⟨Method.GET, req.path⟩).2)
  else
    route s req

/-- The app's `fetch` entry point as exported: a request is answered from
the state established at module load. -/
def appFetch (req : Request) : Response :=
  (handle initialState req).1

/-- The server state after processing a sequence of requests in order. -/
def execState : ServerState → List Request → ServerState
  | s, [] => s
  | s, r :: rs => execState (handle s r).2 rs

/-- The bytes of a response as observed on the wire: status line plus the
serialized body. -/
def responseBytes (resp : Response) : String :=
  toString resp.status ++ "\n" ++
    (match resp.body with
     | Body.text s => s
     | Body.json j => Json.render j
     | Body.empty => "")

/-- The exported server configuration. The export in the source is the
object literal `\x7b fetch: app.fetch, port: 3333 \x7d`. -/
structure ServerConfig where
  fetch : Request → Response
  port : Nat

/-- The module's default export. It is built from constants only; the
process environment is passed in to record that the source consults no
environment variable when building it. -/
def defaultExport (_env : List (String × String)) : ServerConfig :=
  ⟨appFetch, 3333⟩

/-- The response object `fetchTodos` receives from `fetch`: the HTTP
status and the JSON value its body parses to (`response.json()`). -/
structure FetchResponse where
  status : Nat
  jsonBody : Json

/-- `response.ok` of the fetch API: true exactly when the status is in
the 2xx range. -/
def FetchResponse.ok (r : FetchResponse) : Bool :=
  decide (200 ≤ r.status) && decide (r.status < 300)

/-- The observable effects `fetchTodos` performs, in order: the HTTP GET
itself and the `sleep` call. -/
inductive FetchEvent where
  | httpGet (url : String) : FetchEvent
  | sleep (ms : Nat) : FetchEvent
deriving Repr, DecidableEq

/-- The client's `fetchTodos`, parameterized by the response its `fetch`
call yields. It returns the ordered trace of effects it performed and
its outcome: `await fetch('/api/todos')`; if `response.ok` is false,
throw `Error('Network response was not ok')`; otherwise
`await sleep(1000)` and return `response.json()`. -/
def fetchTodos (resp : FetchResponse) : List FetchEvent × Except String Json :=
  if resp.ok then
    ([FetchEvent.httpGet "/api/todos", FetchEvent.sleep 1000],
      Except.ok resp.jsonBody)
  else
    ([FetchEvent.httpGet "/api/todos"],
      Except.error "Network response was not ok")

/-- The query state the component destructures from `useQuery`: the
cached data (if any), the loading flag, and the error (carrying its
message) if the query failed. -/
structure QueryState where
  data : Option (List Todo)
  isLoading : Bool
  error : Option String
deriving Repr, DecidableEq

/-- The three static presentations the demo component can return: the
loading panel, the error panel showing `error.message`, or the list view
rendering one item per record of `data` (nothing when `data` is
undefined, via `data?.map`). -/
inductive Rendering where
  | loadingPanel : Rendering
  | errorPanel (message : String) : Rendering
  | listView (data : Option (List Todo)) : Rendering
deriving Repr, DecidableEq

/-- The `TanStackQueryDemo` component: `if (isLoading)` return the
loading panel; `if (error)` return the error panel with `error.message`;
otherwise return the list view over `data`. -/
def TanStackQueryDemo (s : QueryState) : Rendering :=
  if s.isLoading then
    Rendering.loadingPanel
  else
    match s.error with
    | some msg => Rendering.errorPanel msg
    | none => Rendering.listView s.data

/-- No route handler of the app writes to the server state: routing
leaves the in-memory list as it found it. -/
theorem route_preserves_state (s : ServerState) (r : Request) :
    (route s r).2 = s := by
  simp only [route]
  split
  · rfl
  · split <;> rfl

/-- Every request — HEAD dispatch included — leaves the server state as
it found it. -/
theorem handle_preserves_state (s : ServerState) (r : Request) :
    (handle s r).2 = s := by
  simp only [handle]
  split <;> simp [route_preserves_state]

/-- Processing any request sequence leaves the server state unchanged. -/
theorem execState_eq_self (rs : List Request) (s : ServerState) :
    execState s rs = s := by
  induction rs generalizing s with
  | nil => rfl
  | cons r rs ih => simp [execState, handle_preserves_state, ih]

/-- C1: every HTTP GET request to `/api/todos` is answered with status
200 and a JSON array equal to exactly
`[\x7bid:1,name:"Alice"\x7d,\x7bid:2,name:"Bob"\x7d,\x7bid:3,name:"Hehe"\x7d]`,
in that order. -/
theorem c1_get_api_todos_fixed_list :
    appFetch ⟨Method.GET, "/api/todos"⟩ =
      ⟨200, Body.json (Json.arr
        [Json.obj [("id", Json.num 1), ("name", Json.str "Alice")],
         Json.obj [("id", Json.num 2), ("name", Json.str "Bob")],
         Json.obj [("id", Json.num 3), ("name", Json.str "Hehe")]])⟩ := by
  rfl

/-- C4: every HTTP GET request to `/` is answered with status 200 and the
exact plain-text body `Hello Hono!`. -/
theorem c4_get_root_greeting :
    appFetch ⟨Method.GET, "/"⟩ = ⟨200, Body.text "Hello Hono!"⟩ := by
  rfl

/-- C5: after any two request histories within one process lifetime, the
responses to `GET /api/todos` are byte-identical: no operation of the
service mutates the in-memory list after startup. -/
theorem c5_repeated_get_byte_identical (rs₁ rs₂ : List Request) :
    responseBytes (handle (execState initialState rs₁) ⟨Method.GET, "/api/todos"⟩).1 =
      responseBytes (handle (execState initialState rs₂) ⟨Method.GET, "/api/todos"⟩).1 := by
  rw [execState_eq_self, execState_eq_self]

/-- C7: the exported configuration sets the listening port to exactly
3333 as a hard-coded constant; it is the same whatever the process
environment holds. -/
theorem c7_port_hardcoded_3333 (env : List (String × String)) :
    (defaultExport env).port = 3333 := by
  rfl

/-- Counterexample to C10 as frozen: `HEAD /` matches neither registered
route (its method is not GET), yet the framework's HEAD dispatch answers
it from the `GET /` handler with status 200, not 404. -/
theorem c10_head_root_returns_200 :
    Method.HEAD ≠ Method.GET ∧
      (appFetch ⟨Method.HEAD, "/"⟩).status = 200 ∧
      (appFetch ⟨Method.HEAD, "/"⟩).status ≠ 404 := by
  decide

/-- C10 (amended): only `GET /` and `GET /api/todos` are registered, and
the framework additionally dispatches HEAD requests to the GET handlers;
every request that is neither a GET nor a HEAD request to one of the two
registered paths yields the framework's default not-found response
(status 404), not a 200 response. -/
theorem c10_unmatched_requests_404 (req : Request)
    (h₁ : ¬((req.method = Method.GET ∨ req.method = Method.HEAD) ∧ req.path = "/"))
    (h₂ : ¬((req.method = Method.GET ∨ req.method = Method.HEAD) ∧ req.path = "/api/todos")) :
    (appFetch req).status = 404 ∧ (appFetch req).status ≠ 200 := by
  by_cases hm : req.method = Method.HEAD
  · have hp₁ : req.path ≠ "/" := fun hp => h₁ ⟨Or.inr hm, hp⟩
    have hp₂ : req.path ≠ "/api/todos" := fun hp => h₂ ⟨Or.inr hm, hp⟩
    simp [appFetch, handle, route, hm, hp₁, hp₂]
  · have hg₁ : ¬(req.method = Method.GET ∧ req.path = "/") :=
      fun hg => h₁ ⟨Or.inl hg.1, hg.2⟩
    have hg₂ : ¬(req.method = Method.GET ∧ req.path = "/api/todos") :=
      fun hg => h₂ ⟨Or.inl hg.1, hg.2⟩
    simp [appFetch, handle, route, hm, if_neg hg₁, if_neg hg₂]

/-- Witness for C10 (amended): `POST /api/todos` matches neither route,
is not a HEAD request, and is answered with 404. -/
theorem c10_unmatched_requests_404_witness :
    (appFetch ⟨Method.POST, "/api/todos"⟩).status = 404 ∧
      (appFetch ⟨Method.POST, "/api/todos"⟩).status ≠ 200 :=
  c10_unmatched_requests_404 ⟨Method.POST, "/api/todos"⟩ (by decide) (by decide)

/-- C2: on every response whose status is non-success (`ok` false),
`fetchTodos` fails with the error message exactly
`Network response was not ok` and returns no value. -/
theorem c2_non_ok_throws (resp : FetchResponse) (h : resp.ok = false) :
    (fetchTodos resp).2 = Except.error "Network response was not ok" := by
  simp [fetchTodos, h]

/-- Witness for C2: a status-404 response makes `fetchTodos` fail with
the fixed message. -/
theorem c2_non_ok_throws_witness :
    FetchResponse.ok ⟨404, Json.null⟩ = false ∧
      (fetchTodos ⟨404, Json.null⟩).2 = Except.error "Network response was not ok" :=
  ⟨by decide, c2_non_ok_throws ⟨404, Json.null⟩ (by decide)⟩

/-- C3: on every success-status response, `fetchTodos` returns the parsed
JSON body unchanged (hence in its input order), and only after the
artificial delay: the effect trace is the GET followed by the
1000 ms sleep, and the result is the body. -/
theorem c3_success_returns_body_after_delay (resp : FetchResponse)
    (h : resp.ok = true) :
    fetchTodos resp =
      ([FetchEvent.httpGet "/api/todos", FetchEvent.sleep 1000],
        Except.ok resp.jsonBody) := by
  simp [fetchTodos, h]

/-- Witness for C3: a status-200 response with a two-element array body
yields that array after the delay. -/
theorem c3_success_returns_body_after_delay_witness :
    FetchResponse.ok ⟨200, Json.arr [Json.num 1, Json.num 2]⟩ = true ∧
      fetchTodos ⟨200, Json.arr [Json.num 1, Json.num 2]⟩ =
        ([FetchEvent.httpGet "/api/todos", FetchEvent.sleep 1000],
          Except.ok (Json.arr [Json.num 1, Json.num 2])) :=
  ⟨by decide, c3_success_returns_body_after_delay ⟨200, Json.arr [Json.num 1, Json.num 2]⟩ (by decide)⟩

/-- C8: the artificial delay occurs only on the success path: on every
non-success response `fetchTodos` fails without any sleep in its effect
trace. -/
theorem c8_no_delay_on_failure (resp : FetchResponse) (h : resp.ok = false) :
    (∀ ms, FetchEvent.sleep ms ∉ (fetchTodos resp).1) ∧
      (fetchTodos resp).2 = Except.error "Network response was not ok" := by
  simp [fetchTodos, h]

/-- Witness for C8: a status-500 response produces a trace without the
1000 ms sleep. -/
theorem c8_no_delay_on_failure_witness :
    FetchResponse.ok ⟨500, Json.null⟩ = false ∧
      FetchEvent.sleep 1000 ∉ (fetchTodos ⟨500, Json.null⟩).1 :=
  ⟨by decide, (c8_no_delay_on_failure ⟨500, Json.null⟩ (by decide)).1 1000⟩

/-- C9: `fetchTodos` performs no runtime validation of the body: every
success-status response whose body parses to any JSON value `v` — array
of records or not — is returned as `v` unchanged. -/
theorem c9_no_runtime_validation (v : Json) (status : Nat)
    (h : FetchResponse.ok ⟨status, v⟩ = true) :
    (fetchTodos ⟨status, v⟩).2 = Except.ok v := by
  simp [fetchTodos, h]

/-- Witness for C9: a status-200 response whose body is a bare string —
not a record array — is returned unchanged. -/
theorem c9_no_runtime_validation_witness :
    FetchResponse.ok ⟨200, Json.str "not a record array"⟩ = true ∧
      (fetchTodos ⟨200, Json.str "not a record array"⟩).2 =
        Except.ok (Json.str "not a record array") :=
  ⟨by decide, c9_no_runtime_validation (Json.str "not a record array") 200 (by decide)⟩

/-- C6: for every query state the component renders exactly one of the
three static presentations: the loading panel exactly when loading,
the error panel with the error's message exactly when not loading and an
error is present, and the list view exactly when not loading and no
error is present. -/
theorem c6_three_state_rendering (s : QueryState) :
    (TanStackQueryDemo s = Rendering.loadingPanel ↔ s.isLoading = true) ∧
      (∀ m, TanStackQueryDemo s = Rendering.errorPanel m ↔
        (s.isLoading = false ∧ s.error = some m)) ∧
      (∀ d, TanStackQueryDemo s = Rendering.listView d ↔
        (s.isLoading = false ∧ s.error = none ∧ s.data = d)) := by
  obtain ⟨d, l, e⟩ := s
  cases l <;> cases e <;> simp [TanStackQueryDemo]

/-- Witness for C6: a loading state renders the loading panel. -/
theorem c6_three_state_rendering_witness :
    TanStackQueryDemo ⟨none, true, none⟩ = Rendering.loadingPanel :=
  (c6_three_state_rendering ⟨none, true, none⟩).1.mpr rfl
